import Mathlib

/-!
Verification of the session lifecycle engine of `lib/session.py`.

The development shallowly embeds the `Session` class of `lib/session.py`
and the store operations it performs through pymongo.  Time is modelled as
seconds (`Nat`), randomness as an external seed (`ctr : Nat`) consumed by
the token generator, and the MongoDB collection as a list of documents in
natural (insertion) order, matching pymongo 2.x semantics of the three
calls the source makes: `find_one` (first matching document),
`update(spec, doc)` (default `multi=False`, `upsert=False`: modifies the
first matching document only), and `save(doc)` (the passed dict carries no
`_id`, so an insert is performed; repeated saves insert new documents).
-/

/-- Modelled from the spec: the Token Codec lives in `lib/token.py`
(`from lib.token import create_token, valid_token`), which is not among the
sources.  Spec section 4.1: identifiers carry 256 bits of randomness encoded
in the URL-safe base64 alphabet, hence 43 characters drawn from
A-Z, a-z, 0-9, `-`, `_`.  This predicate recognises that alphabet. -/
def base64UrlChar (c : Char) : Bool :=
  c.isAlpha || c.isDigit || c == '-' || c == '_'

/-- Modelled from the spec: length of a generated token, 43 base64url
characters holding at least 256 bits of entropy. -/
def tokenLength : Nat := 43

/-- Modelled from the spec: `valid_token` from `lib/token.py` is a pure
well-formedness check of length and character set against the exact output
shape of the generator. -/
def valid_token (s : String) : Bool :=
  s.toList.length == tokenLength && s.toList.all base64UrlChar

/-- Digits of the URL-safe base64 alphabet, in the conventional order. -/
def tokenDigit (n : Nat) : Char :=
  if n < 26 then Char.ofNat (65 + n)
  else if n < 52 then Char.ofNat (97 + (n - 26))
  else if n < 62 then Char.ofNat (48 + (n - 52))
  else if n = 62 then '-'
  else '_'

/-- Modelled from the spec: `create_token` from `lib/token.py` draws 256
bits from a cryptographically secure generator and encodes them base64url.
The randomness is externalised: each call consumes a fresh seed `seed`, and
the encoding of the seed into the 43 digit positions is little-endian. -/
def create_token (seed : Nat) : String :=
  String.mk ((List.range tokenLength).map (fun i => tokenDigit (seed / 64 ^ i % 64)))

/-- Values storable in a session mapping / MongoDB document field. -/
inductive Val where
  | str : String → Val
  | num : Int → Val
  | bool : Bool → Val
  | time : Nat → Val
  | vmap : List (String × Val) → Val

/-- Lookup in a Python dict modelled as an association list in insertion
order. -/
def dictGet (d : List (String × Val)) (k : String) : Option Val :=
  (d.find? (fun kv => kv.1 == k)).map (fun kv => kv.2)

/-- Assignment `d[k] = v` in a Python dict: replaces the value in place if
the key is present, otherwise appends the new binding. -/
def dictSet (d : List (String × Val)) (k : String) (v : Val) : List (String × Val) :=
  match d with
  | [] => [(k, v)]
  | (k', v') :: t => if k' == k then (k, v) :: t else (k', v') :: dictSet t k v

/-- Deletion `del d[k]` in a Python dict: removes the binding for `k` (the
source's `__delitem__` raises KeyError for an absent key, but only after the
`modified` flag has already been set; the removal itself is a no-op then). -/
def dictDel (d : List (String × Val)) (k : String) : List (String × Val) :=
  match d with
  | [] => []
  | (k', v') :: t => if k' == k then t else (k', v') :: dictDel t k

/-- One MongoDB session document.  `expired := none` models the absence of
an `expired` field: documents written by `Session.save` carry only
`last_update`, `session_id` and `data`; the field appears only once an
`update` with `$set expired: True` has touched the document.  (The driver
also materialises an `_id` on insert; the source never stores or reads one,
so it is not modelled.) -/
structure Doc where
  session_id : String
  last_update : Nat
  expired : Option Bool
  data : List (String × Val)

/-- Subscript access `doc[k]` on a fetched pymongo document: the top-level
fields the program ever writes.  A key outside them raises KeyError,
modelled as `none`. -/
def Doc.get (d : Doc) (k : String) : Option Val :=
  if k == "session_id" then some (Val.str d.session_id)
  else if k == "last_update" then some (Val.time d.last_update)
  else if k == "expired" then d.expired.map Val.bool
  else if k == "data" then some (Val.vmap d.data)
  else none

/-- The store's `find_one({'session_id': sid})`: first document in natural
order whose `session_id` equals `sid`. -/
def storeFindOne (st : List Doc) (sid : String) : Option Doc :=
  st.find? (fun d => d.session_id == sid)

/-- The store's `update(match, {'$set': {'expired': True}})`.  pymongo 2.x
`Collection.update` defaults to `multi=False`, `upsert=False`: it sets the
field on the first matching document only and does nothing when no document
matches. -/
def storeUpdate (p : Doc → Bool) : List Doc → List Doc
  | [] => []
  | d :: t => if p d then { d with expired := some true } :: t else d :: storeUpdate p t

/-- The document built by `Session.save`: note the absence of an `expired`
field. -/
def saveDoc (sid : String) (lu : Nat) (payload : List (String × Val)) : Doc :=
  { session_id := sid, last_update := lu, expired := none, data := payload }

/-- The `Session` entity of `lib/session.py`.  `data` is the contents of the
underlying dict (the class subclasses `dict`); `new` mirrors the class
attribute `new`, declared but never assigned anywhere in the source;
`session_id` mirrors the stray instance attribute that only `rotate`
creates, distinct from `id`. -/
structure Session where
  id : String
  modified : Bool
  new : Option Bool
  expired : Bool
  session_id : Option String
  data : List (String × Val)
  last_update : Nat

/-- Inherited `dict.clear`, called by `reset`; not overridden, so it leaves
`modified` alone. -/
def Session.clear (s : Session) : Session :=
  { s with data := [] }

/-- `Session.reset` (session.py:102-113): fresh token, `modified = True`,
`last_update = now`, wipe the mapping.  It does not touch `expired`. -/
def Session.reset (s : Session) (now ctr : Nat) : Session :=
  Session.clear { s with id := create_token ctr, modified := true, last_update := now }

/-- `Session.__setitem__` (session.py:115-117): sets `modified` then stores
the pair. -/
def Session.setItem (s : Session) (k : String) (v : Val) : Session :=
  { s with modified := true, data := dictSet s.data k v }

/-- `Session.__delitem__` (session.py:119-121): sets `modified` then deletes
the key (KeyError for an absent key propagates after the flag is set). -/
def Session.delItem (s : Session) (k : String) : Session :=
  { s with modified := true, data := dictDel s.data k }

/-- Inherited `dict.__getitem__` / `get`: a read returns the value and
leaves the entity untouched. -/
def Session.getItem (s : Session) (k : String) : Option Val × Session :=
  (dictGet s.data k, s)

/-- `Session.expire` (session.py:123-130): `$set expired: True` on the
first stored document whose `session_id` is the current id, then set the
in-memory flag. -/
def Session.expire (s : Session) (st : List Doc) : Session × List Doc :=
  ({ s with expired := true }, storeUpdate (fun d => d.session_id == s.id) st)

/-- `Session.expire_set` (session.py:132-139): `update(match, $set expired)`
against an arbitrary predicate, then unconditionally set the in-memory
flag. -/
def Session.expire_set (s : Session) (p : Doc → Bool) (st : List Doc) : Session × List Doc :=
  ({ s with expired := true }, storeUpdate p st)

/-- `Session.rotate` (session.py:141-156): expire the current id, then
assign a fresh token to the attribute `session_id` (NOT to `id`), set
`modified = True` and `expired = False`. -/
def Session.rotate (s : Session) (st : List Doc) (ctr : Nat) : Session × List Doc :=
  let es := s.expire st
  ({ es.1 with session_id := some (create_token ctr), modified := true, expired := false }, es.2)

/-- `Session.save` (session.py:158-172): no-op when `expired`; otherwise
set `last_update = now` and insert `{last_update, session_id, data}` (the
dict carries no `_id`, so pymongo `Collection.save` performs an insert). -/
def Session.save (s : Session) (st : List Doc) (now : Nat) : Session × List Doc :=
  if s.expired then (s, st)
  else ({ s with last_update := now }, st ++ [saveDoc s.id now s.data])

/-- Inherited `dict.update`: bulk assignment bypassing `__setitem__`
(CPython's `dict.update` does not call the subclass hook). -/
def Session.updateDict (s : Session) (kvs : List (String × Val)) : Session :=
  { s with data := kvs.foldl (fun d kv => dictSet d kv.1 kv.2) s.data }

/-- Inherited `dict.pop`: removes and returns the value, bypassing
`__delitem__`. -/
def Session.pop (s : Session) (k : String) : Option Val × Session :=
  (dictGet s.data k, { s with data := dictDel s.data k })

/-- Inherited `dict.popitem`: removes one item (the last binding here). -/
def Session.popitem (s : Session) : Option (String × Val) × Session :=
  (s.data.getLast?, { s with data := s.data.dropLast })

/-- Inherited `dict.setdefault`: inserts the default when the key is absent,
bypassing `__setitem__`. -/
def Session.setdefault (s : Session) (k : String) (v : Val) : Val × Session :=
  match dictGet s.data k with
  | some w => (w, s)
  | none => (v, { s with data := dictSet s.data k v })

/-- The result of running `Session.__init__`: the constructed entity (or
the uncaught Python exception escaping the constructor, as
`Except.error`), the store after construction, and the number of
`find_one` calls performed (the spec's store stub counting lookups). -/
structure InitResult where
  outcome : Except String Session
  store : List Doc
  finds : Nat

/-- The data-loading loop of `Session.__init__` (session.py:96-98):
`for k in doc['data'].keys(): self[k] = doc[k]`.  Note the loop body reads
the TOP-LEVEL field `doc[k]`, not `doc['data'][k]`; a data key outside the
document's own field names raises KeyError. -/
def Session.loadData (s : Session) (d : Doc) : Except String Session :=
  (d.data.map Prod.fst).foldlM
    (fun acc k =>
      match d.get k with
      | some v => Except.ok (acc.setItem k v)
      | none => Except.error ("KeyError: " ++ k)) s

/-- `Session.__init__` (session.py:49-100).  `cookie` is
`request.str_cookies.get(config['name'], None)`; `now` the current time in
seconds; `ctr` the seed consumed if a token is generated; `timeout`
`config['timeout']`.  The branch structure follows the source: missing or
empty cookie (`if not self.id`), invalid token, no matching document,
`doc['expired']` (KeyError when the field is absent) truthy, idle age above
the timeout (expire then reset), and finally the data-loading loop with
`modified = False`. -/
def Session.init (cookie : Option String) (st : List Doc) (now ctr : Nat)
    (timeout : Nat) : InitResult :=
  let s0 : Session :=
    { id := cookie.getD "", modified := false, new := none, expired := false,
      session_id := none, data := [], last_update := 0 }
  if s0.id == "" then
    { outcome := Except.ok (s0.reset now ctr), store := st, finds := 0 }
  else if valid_token s0.id = false then
    { outcome := Except.ok (s0.reset now ctr), store := st, finds := 0 }
  else
    match storeFindOne st s0.id with
    | none => { outcome := Except.ok (s0.reset now ctr), store := st, finds := 1 }
    | some doc =>
      let s1 := { s0 with last_update := doc.last_update }
      match doc.expired with
      | none => { outcome := Except.error "KeyError: expired", store := st, finds := 1 }
      | some ex =>
        if ex then
          { outcome := Except.ok (s1.reset now ctr), store := st, finds := 1 }
        else if (timeout : Int) < (now : Int) - (doc.last_update : Int) then
          let et := s1.expire st
          { outcome := Except.ok (et.1.reset now ctr), store := et.2, finds := 1 }
        else
          match s1.loadData doc with
          | Except.ok s2 => { outcome := Except.ok { s2 with modified := false }, store := st, finds := 1 }
          | Except.error e => { outcome := Except.error e, store := st, finds := 1 }

/-- The entity produced when construction falls into `reset` on a pristine
instance: fresh token, empty mapping, `modified = True`,
`last_update = now`, `expired = False`. -/
def freshSession (now ctr : Nat) : Session :=
  { id := create_token ctr, modified := true, new := none, expired := false,
    session_id := none, data := [], last_update := now }

/-- Digits of the base64url alphabet all satisfy the character-class
predicate. -/
theorem tokenDigit_base64 : ∀ k, k < 64 → base64UrlChar (tokenDigit k) = true := by decide

/-- Tokens produced by the generator pass the well-formedness check. -/
theorem create_token_valid (seed : Nat) : valid_token (create_token seed) = true := by
  unfold valid_token create_token
  rw [Bool.and_eq_true]
  constructor
  · unfold String.toList
    simp [tokenLength]
  · rw [List.all_eq_true]
    intro c hc
    unfold String.toList at hc
    simp only [String.mk] at hc
    rw [List.mem_map] at hc
    obtain ⟨i, _, hci⟩ := hc
    rw [← hci]
    exact tokenDigit_base64 _ (Nat.mod_lt _ (by norm_num))

/-- A well-formed token is not the empty string. -/
theorem valid_token_ne_empty (t : String) (h : valid_token t = true) : t ≠ "" := by
  intro he
  subst he
  exact absurd h (by decide)

/-- C9: constructing with no incoming cookie always yields a fresh
well-formed id, an empty mapping, `modified = true`, `last_update = now`,
and returns the store untouched (no prior stored document is marked
expired). -/
theorem no_cookie_yields_fresh_session (st : List Doc) (now ctr timeout : Nat) :
    Session.init none st now ctr timeout
      = { outcome := Except.ok (freshSession now ctr), store := st, finds := 0 }
    ∧ valid_token (freshSession now ctr).id = true
    ∧ (freshSession now ctr).data = []
    ∧ (freshSession now ctr).modified = true
    ∧ (freshSession now ctr).last_update = now :=
  ⟨rfl, create_token_valid ctr, rfl, rfl, rfl⟩

/-- C2: `rotate()` writes the fresh token into the stray attribute
`session_id` and leaves the canonical identifier `id` unchanged; the old
id's first stored document is marked expired, the mapping is preserved,
`modified = true` and `expired = false`.  The entity therefore never
receives a fresh identifier, contradicting the claim. -/
theorem rotate_leaves_id_unchanged (s : Session) (st : List Doc) (ctr : Nat) :
    (s.rotate st ctr).1.id = s.id
    ∧ (s.rotate st ctr).1.session_id = some (create_token ctr)
    ∧ (s.rotate st ctr).1.expired = false
    ∧ (s.rotate st ctr).1.modified = true
    ∧ (s.rotate st ctr).1.data = s.data
    ∧ (s.rotate st ctr).2 = storeUpdate (fun d => d.session_id == s.id) st :=
  ⟨rfl, rfl, rfl, rfl, rfl, rfl⟩

/-- C6: `save()` on an entity whose `expired` flag is true performs no
store write at all and leaves the entity unchanged. -/
theorem save_expired_is_noop (s : Session) (st : List Doc) (now : Nat)
    (h : s.expired = true) : s.save st now = (s, st) := by
  simp [Session.save, h]

/-- Witness for `save_expired_is_noop` at a concrete expired entity over a
one-document store. -/
theorem save_expired_is_noop_witness :
    ({ freshSession 0 0 with expired := true } : Session).save [saveDoc (create_token 0) 0 []] 7
      = ({ freshSession 0 0 with expired := true }, [saveDoc (create_token 0) 0 []]) :=
  save_expired_is_noop _ _ _ rfl

/-- C7: subscript assignment and subscript deletion unconditionally set
`modified = true` (whatever value was stored before), while a read returns
the value and leaves the entity — in particular its `modified` flag —
untouched. -/
theorem subscript_mutation_marks_modified (s : Session) (k : String) (v : Val) :
    (s.setItem k v).modified = true
    ∧ (s.delItem k).modified = true
    ∧ (s.getItem k).2 = s :=
  ⟨rfl, rfl, rfl⟩

/-- C1: the save/reload round trip does not reproduce the mapping; it
raises.  First conjunct: a mapping `{x: 1}` written into a fresh session
and saved at time 10 makes reconstruction at time 20 (timeout 600) raise
`KeyError: expired`, because `save()` writes documents without an
`expired` field while `__init__` reads `doc['expired']`.  Second conjunct:
even over a document that does carry `expired: false`, the loading loop
reads the top-level `doc['x']` instead of `doc['data']['x']` and raises
`KeyError: x`. -/
theorem roundtrip_raises_keyerror :
    (Session.init (some (create_token 0))
      (((freshSession 0 0).setItem "x" (Val.num 1)).save [] 10).2 20 1 600).outcome
      = Except.error "KeyError: expired"
    ∧ (Session.init (some (create_token 0))
      [{ session_id := create_token 0, last_update := 10, expired := some false,
         data := [("x", Val.num 1)] }] 20 1 600).outcome
      = Except.error "KeyError: x" :=
  ⟨rfl, rfl⟩

/-- C10 counterexample: a write through the inherited `dict.update` leaves
`modified = false`, yet the write is NOT lost — `save()` never consults
`modified` and persists the mapping unconditionally, so the stored document
contains the written key. -/
theorem dict_update_write_persisted :
    (({ freshSession 0 0 with modified := false } : Session).updateDict
        [("k", Val.num 7)]).modified = false
    ∧ ((({ freshSession 0 0 with modified := false } : Session).updateDict
        [("k", Val.num 7)]).save [] 5).2
      = [saveDoc (create_token 0) 5 [("k", Val.num 7)]] :=
  ⟨rfl, rfl⟩

/-- C10 (amended): the inherited dict methods `update`, `pop`, `popitem`,
`setdefault` and `clear` bypass the overridden subscript hooks and leave
`modified` unchanged; but since `save()` persists the mapping without
consulting `modified`, such writes are still saved for any non-expired
entity. -/
theorem inherited_dict_methods_not_marking (s : Session) (kvs : List (String × Val))
    (k : String) (v : Val) (st : List Doc) (now : Nat) :
    (s.updateDict kvs).modified = s.modified
    ∧ (s.pop k).2.modified = s.modified
    ∧ s.popitem.2.modified = s.modified
    ∧ (s.setdefault k v).2.modified = s.modified
    ∧ s.clear.modified = s.modified
    ∧ (s.expired = false →
        ((s.updateDict kvs).save st now).2
          = st ++ [saveDoc s.id now (s.updateDict kvs).data]) := by
  refine ⟨rfl, rfl, rfl, ?_, rfl, ?_⟩
  · unfold Session.setdefault
    cases dictGet s.data k <;> rfl
  · intro h
    simp [Session.save, Session.updateDict, h]

/-- Witness for `inherited_dict_methods_not_marking` on a concrete
non-expired session, exercising the save conjunct. -/
theorem inherited_dict_methods_not_marking_witness :
    (({ freshSession 0 0 with modified := false } : Session).updateDict
        [("k", Val.num 7)]).modified = false
    ∧ ((({ freshSession 0 0 with modified := false } : Session).updateDict
        [("k", Val.num 7)]).save [] 5).2
      = [] ++ [saveDoc (create_token 0) 5
          (({ freshSession 0 0 with modified := false } : Session).updateDict
            [("k", Val.num 7)]).data] :=
  ⟨(inherited_dict_methods_not_marking
      { freshSession 0 0 with modified := false } [("k", Val.num 7)] "a" (Val.num 2) [] 5).1,
   (inherited_dict_methods_not_marking
      { freshSession 0 0 with modified := false } [("k", Val.num 7)] "a" (Val.num 2) [] 5).2.2.2.2.2 rfl⟩

/-- C8: a cookie value failing the well-formedness check is handled before
any store access — construction performs zero `find_one` calls, ignores the
store entirely, and produces exactly the same result as construction with
no cookie at all. -/
theorem invalid_token_no_lookup (t : String) (st : List Doc) (now ctr timeout : Nat)
    (h : valid_token t = false) :
    Session.init (some t) st now ctr timeout = Session.init none st now ctr timeout
    ∧ (Session.init (some t) st now ctr timeout).finds = 0 := by
  have hres : Session.init (some t) st now ctr timeout
      = { outcome := Except.ok (freshSession now ctr), store := st, finds := 0 } := by
    by_cases he : t = ""
    · subst he; rfl
    · simp [Session.init, he, h, Session.reset, Session.clear, freshSession]
  refine ⟨hres.trans ?_, by rw [hres]⟩
  rfl

/-- Witness for `invalid_token_no_lookup`: the concrete malformed cookie
value `bad!` (wrong length and an illegal character) over a non-empty
store. -/
theorem invalid_token_no_lookup_witness :
    Session.init (some "bad!") [saveDoc (create_token 0) 0 []] 5 1 600
      = Session.init none [saveDoc (create_token 0) 0 []] 5 1 600
    ∧ (Session.init (some "bad!") [saveDoc (create_token 0) 0 []] 5 1 600).finds = 0 :=
  invalid_token_no_lookup "bad!" [saveDoc (create_token 0) 0 []] 5 1 600 (by decide)

/-- When no stored document satisfies the predicate, the store update is a
no-op. -/
theorem storeUpdate_no_match (p : Doc → Bool) (st : List Doc)
    (h : ∀ d ∈ st, p d = false) : storeUpdate p st = st := by
  induction st with
  | nil => rfl
  | cons a t ih =>
    have hpa : ¬ (p a = true) := by simp [h a (List.mem_cons_self a t)]
    unfold storeUpdate
    rw [if_neg hpa, ih (fun d hd => h d (List.mem_cons_of_mem a hd))]

/-- The store update marks exactly the first matching document and leaves
every other document untouched. -/
theorem storeUpdate_first_match (p : Doc → Bool) (a b : List Doc) (d : Doc)
    (ha : ∀ x ∈ a, p x = false) (hd : p d = true) :
    storeUpdate p (a ++ d :: b) = a ++ { d with expired := some true } :: b := by
  induction a with
  | nil =>
    simp only [List.nil_append]
    unfold storeUpdate
    rw [if_pos hd]
  | cons x xs ih =>
    have hpx : ¬ (p x = true) := by simp [ha x (List.mem_cons_self x xs)]
    simp only [List.cons_append]
    unfold storeUpdate
    rw [if_neg hpx, ih (fun y hy => ha y (List.mem_cons_of_mem x hy))]

/-- C5 (amended): `expire_set(P)` unconditionally sets the calling entity's
in-memory `expired` flag (whether or not its own session matches P), and in
the store marks only the FIRST document matching P (pymongo `update`
defaults to a single document), leaving every other document — matching or
not — untouched. -/
theorem expire_set_first_match_only (s : Session) (p : Doc → Bool) (st : List Doc) :
    (s.expire_set p st).1 = { s with expired := true }
    ∧ ((∀ d ∈ st, p d = false) → (s.expire_set p st).2 = st)
    ∧ (∀ a b d, st = a ++ d :: b → (∀ x ∈ a, p x = false) → p d = true →
        (s.expire_set p st).2 = a ++ { d with expired := some true } :: b) := by
  refine ⟨rfl, fun h => storeUpdate_no_match p st h, ?_⟩
  intro a b d hst ha hd
  rw [show (s.expire_set p st).2 = storeUpdate p st from rfl, hst]
  exact storeUpdate_first_match p a b d ha hd

/-- Document fixtures for the group-revocation scenarios: two live
documents for principals A and B. -/
def docA : Doc := { session_id := "A", last_update := 0, expired := some false, data := [] }

/-- Second fixture document, for principal B. -/
def docB : Doc := { session_id := "B", last_update := 0, expired := some false, data := [] }

/-- Witness for `expire_set_first_match_only`: concrete predicate matching
document A sitting after document B in the store. -/
theorem expire_set_first_match_only_witness :
    ((freshSession 0 2).expire_set (fun d => d.session_id == "A") [docB, docA]).1
      = { freshSession 0 2 with expired := true }
    ∧ ((freshSession 0 2).expire_set (fun d => d.session_id == "A") [docB, docA]).2
      = [docB] ++ { docA with expired := some true } :: [] :=
  ⟨(expire_set_first_match_only (freshSession 0 2) (fun d => d.session_id == "A") [docB, docA]).1,
   (expire_set_first_match_only (freshSession 0 2) (fun d => d.session_id == "A") [docB, docA]).2.2
     [docB] [] docA rfl (by decide) (by decide)⟩

/-- C5 counterexample: with the predicate matching every document, the
second matching document `docB` is left untouched (only the first match is
marked), refuting "marks exactly the stored documents matching P"; and with
a predicate matching no document at all — in particular not the calling
entity's own session — the entity's `expired` flag is still set to true,
refuting "otherwise the entity's flag is unchanged". -/
theorem expire_set_claim_false :
    ((freshSession 0 2).expire_set (fun _ => true) [docA, docB]).2
      = [{ docA with expired := some true }, docB]
    ∧ docB.expired = some false
    ∧ ((freshSession 0 2).expire_set (fun d => d.session_id == "Z") [docA, docB]).1.expired = true
    ∧ (freshSession 0 2).expired = false
    ∧ (∀ d ∈ [docA, docB], (d.session_id == "Z") = false) :=
  ⟨rfl, rfl, rfl, rfl, by decide⟩

/-- C4: when construction finds an unexpired stored document whose idle age
exceeds the timeout, it does expire the old identifier in the store and
reset to a fresh token — but the resulting entity keeps `expired = true`
(`reset()` never clears the flag that `expire()` just set, unlike
`rotate()` which does), so the handler receives an unusable session whose
end-of-request `save()` is a no-op: nothing is ever persisted under the
fresh identifier. -/
theorem idle_timeout_entity_unusable (t : String) (st : List Doc) (d : Doc)
    (now ctr timeout : Nat) (hv : valid_token t = true)
    (hf : storeFindOne st t = some d) (hexp : d.expired = some false)
    (hidle : (timeout : Int) < (now : Int) - (d.last_update : Int)) :
    Session.init (some t) st now ctr timeout
      = { outcome := Except.ok { freshSession now ctr with expired := true },
          store := storeUpdate (fun x => x.session_id == t) st, finds := 1 }
    ∧ (∀ st2 n2, ({ freshSession now ctr with expired := true } : Session).save st2 n2
        = ({ freshSession now ctr with expired := true }, st2)) := by
  have hne : t ≠ "" := valid_token_ne_empty t hv
  refine ⟨?_, fun st2 n2 => rfl⟩
  simp [Session.init, hne, hv, hf, hexp, hidle, Session.expire, Session.reset,
    Session.clear, freshSession]

/-- Witness for `idle_timeout_entity_unusable`: a live document, idle for
1000 seconds against a 600-second timeout. -/
theorem idle_timeout_entity_unusable_witness :
    Session.init (some (create_token 0))
        [{ session_id := create_token 0, last_update := 0, expired := some false, data := [] }]
        1000 1 600
      = { outcome := Except.ok { freshSession 1000 1 with expired := true },
          store := storeUpdate (fun x => x.session_id == create_token 0)
            [{ session_id := create_token 0, last_update := 0, expired := some false, data := [] }],
          finds := 1 }
    ∧ (∀ st2 n2, ({ freshSession 1000 1 with expired := true } : Session).save st2 n2
        = ({ freshSession 1000 1 with expired := true }, st2)) :=
  idle_timeout_entity_unusable (create_token 0)
    [{ session_id := create_token 0, last_update := 0, expired := some false, data := [] }]
    { session_id := create_token 0, last_update := 0, expired := some false, data := [] }
    1000 1 600 (create_token_valid 0) rfl rfl (by decide)

/-- Head-hit case of `List.find?` specialised to documents, with the
predicate explicit. -/
theorem find?_cons_pos (p : Doc → Bool) (a : Doc) (l : List Doc) (h : p a = true) :
    List.find? p (a :: l) = some a :=
  List.find?_cons_of_pos l h

/-- Head-miss case of `List.find?` specialised to documents, with the
predicate explicit. -/
theorem find?_cons_neg (p : Doc → Bool) (a : Doc) (l : List Doc) (h : ¬ p a = true) :
    List.find? p (a :: l) = List.find? p l :=
  List.find?_cons_of_neg l h

/-- Expiring via the current id marks the first fetched document for that
id: a subsequent fetch returns it with `expired = true`. -/
theorem storeFindOne_expire_marks (T : String) (st : List Doc) (d : Doc)
    (h : storeFindOne st T = some d) :
    storeFindOne (storeUpdate (fun x => x.session_id == T) st) T
      = some { d with expired := some true } := by
  induction st with
  | nil => simp [storeFindOne] at h
  | cons a t ih =>
    unfold storeFindOne at h ⊢
    by_cases hbeq : (a.session_id == T) = true
    · rw [find?_cons_pos _ a t hbeq] at h
      injection h with h'
      subst h'
      unfold storeUpdate
      rw [if_pos hbeq]
      exact find?_cons_pos _ _ _ hbeq
    · rw [find?_cons_neg _ a t hbeq] at h
      unfold storeUpdate
      rw [if_neg hbeq]
      rw [find?_cons_neg _ a _ hbeq]
      exact ih h

/-- An arbitrary single-document `$set expired` update never un-expires the
document fetched for T: if that fetch showed `expired = true` before, it
still does after. -/
theorem storeFindOne_update_preserves (T : String) (p : Doc → Bool) (st : List Doc) (d : Doc)
    (h : storeFindOne st T = some d) (hexp : d.expired = some true) :
    ∃ d2, storeFindOne (storeUpdate p st) T = some d2 ∧ d2.expired = some true := by
  induction st with
  | nil => simp [storeFindOne] at h
  | cons a t ih =>
    unfold storeFindOne at h ⊢
    unfold storeUpdate
    by_cases hpa : p a = true
    · rw [if_pos hpa]
      by_cases hbeq : (a.session_id == T) = true
      · exact ⟨{ a with expired := some true }, find?_cons_pos _ _ _ hbeq, rfl⟩
      · rw [find?_cons_neg _ a t hbeq] at h
        exact ⟨d, by rw [find?_cons_neg _ _ _ hbeq]; exact h, hexp⟩
    · rw [if_neg hpa]
      by_cases hbeq : (a.session_id == T) = true
      · rw [find?_cons_pos _ a t hbeq] at h
        injection h with h'
        subst h'
        exact ⟨a, find?_cons_pos _ _ _ hbeq, hexp⟩
      · rw [find?_cons_neg _ a t hbeq] at h
        obtain ⟨d2, hd2, he2⟩ := ih h
        exact ⟨d2, by rw [find?_cons_neg _ _ _ hbeq]; exact hd2, he2⟩

/-- Inserting a document at the end of the collection (what `save` does)
never changes which document a fetch by T returns, once one exists. -/
theorem storeFindOne_append_of_found (T : String) (st : List Doc) (e : Doc) (d : Doc)
    (h : storeFindOne st T = some d) : storeFindOne (st ++ [e]) T = some d := by
  induction st with
  | nil => simp [storeFindOne] at h
  | cons a t ih =>
    unfold storeFindOne at h ⊢
    simp only [List.cons_append]
    by_cases hbeq : (a.session_id == T) = true
    · rw [find?_cons_pos _ a t hbeq] at h
      rw [find?_cons_pos _ _ _ hbeq]
      exact h
    · rw [find?_cons_neg _ a t hbeq] at h
      rw [find?_cons_neg _ _ _ hbeq]
      exact ih h

/-- The store side effect of one core operation: a `$set expired: True` on
the first matching document (performed by `expire`, `expire_set`, `rotate`
and the idle-timeout path of construction), an insert at the end of the
collection (performed by `save` on a live entity), or no write at all
(lookups, and `save` on an expired entity). -/
inductive StoreStep : List Doc → List Doc → Prop where
  | update (p : Doc → Bool) (st : List Doc) : StoreStep st (storeUpdate p st)
  | insert (d : Doc) (st : List Doc) : StoreStep st (st ++ [d])
  | skip (st : List Doc) : StoreStep st st

/-- Coverage: `expire` effects a `StoreStep`. -/
theorem expire_is_storeStep (s : Session) (st : List Doc) :
    StoreStep st (s.expire st).2 :=
  StoreStep.update _ st

/-- Coverage: `expire_set` effects a `StoreStep`. -/
theorem expire_set_is_storeStep (s : Session) (p : Doc → Bool) (st : List Doc) :
    StoreStep st (s.expire_set p st).2 :=
  StoreStep.update _ st

/-- Coverage: `rotate` effects a `StoreStep`. -/
theorem rotate_is_storeStep (s : Session) (st : List Doc) (ctr : Nat) :
    StoreStep st (s.rotate st ctr).2 :=
  StoreStep.update _ st

/-- Coverage: `save` effects a `StoreStep`. -/
theorem save_is_storeStep (s : Session) (st : List Doc) (now : Nat) :
    StoreStep st (s.save st now).2 := by
  unfold Session.save
  by_cases h : s.expired = true
  · rw [if_pos h]; exact StoreStep.skip st
  · rw [if_neg h]; exact StoreStep.insert _ st

/-- Coverage: construction effects a `StoreStep` on the store. -/
theorem init_is_storeStep (cookie : Option String) (st : List Doc) (now ctr timeout : Nat) :
    StoreStep st (Session.init cookie st now ctr timeout).store := by
  unfold Session.init
  dsimp only
  repeat' split
  all_goals first
    | exact StoreStep.skip st
    | exact StoreStep.update _ st

/-- One core-operation store effect preserves "the document fetched for T is
expired". -/
theorem storeStep_preserves_revoked (T : String) (st st2 : List Doc)
    (h : StoreStep st st2) (d : Doc) (hf : storeFindOne st T = some d)
    (he : d.expired = some true) :
    ∃ d2, storeFindOne st2 T = some d2 ∧ d2.expired = some true := by
  cases h with
  | update p st => exact storeFindOne_update_preserves T p st d hf he
  | insert e st => exact ⟨d, storeFindOne_append_of_found T st e d hf, he⟩
  | skip st => exact ⟨d, hf, he⟩

/-- Any finite sequence of core-operation store effects preserves "the
document fetched for T is expired". -/
theorem storeSteps_preserve_revoked (T : String) (st st2 : List Doc)
    (h : Relation.ReflTransGen StoreStep st st2) (d : Doc)
    (hf : storeFindOne st T = some d) (he : d.expired = some true) :
    ∃ d2, storeFindOne st2 T = some d2 ∧ d2.expired = some true := by
  induction h with
  | refl => exact ⟨d, hf, he⟩
  | tail _ hbc ih =>
    obtain ⟨d2, hf2, he2⟩ := ih
    exact storeStep_preserves_revoked T _ _ hbc d2 hf2 he2

/-- Construction presenting an identifier whose fetched document is expired
resets to a brand-new entity and leaves the store untouched. -/
theorem init_found_expired (T : String) (st : List Doc) (d : Doc) (now ctr timeout : Nat)
    (hv : valid_token T = true) (hf : storeFindOne st T = some d)
    (he : d.expired = some true) :
    Session.init (some T) st now ctr timeout
      = { outcome := Except.ok (freshSession now ctr), store := st, finds := 1 } := by
  have hne : T ≠ "" := valid_token_ne_empty T hv
  simp [Session.init, hne, hv, hf, he, Session.reset, Session.clear, freshSession]

/-- C3: after `expire()` on a session whose identifier T has a stored
document, that document stays expired under every later finite sequence of
core-operation store effects (`expire`, `expire_set`, `rotate`, `save`,
construction — no operation ever reverts the flag), and any later
construction presenting T resets to a brand-new entity whose freshly
generated identifier differs from T (freshness of the 256-bit random token
taken as hypothesis), leaving the store untouched. -/
theorem revocation_is_permanent (s : Session) (st st2 : List Doc) (T : String) (d : Doc)
    (hid : s.id = T) (hf : storeFindOne st T = some d)
    (hsteps : Relation.ReflTransGen StoreStep (s.expire st).2 st2)
    (now ctr timeout : Nat) (hv : valid_token T = true)
    (hfresh : create_token ctr ≠ T) :
    (∃ d2, storeFindOne st2 T = some d2 ∧ d2.expired = some true)
    ∧ Session.init (some T) st2 now ctr timeout
        = { outcome := Except.ok (freshSession now ctr), store := st2, finds := 1 }
    ∧ (freshSession now ctr).id ≠ T
    ∧ (freshSession now ctr).expired = false := by
  subst hid
  have h1 : storeFindOne (s.expire st).2 s.id = some { d with expired := some true } :=
    storeFindOne_expire_marks s.id st d hf
  obtain ⟨d2, hf2, he2⟩ := storeSteps_preserve_revoked s.id _ st2 hsteps _ h1 rfl
  exact ⟨⟨d2, hf2, he2⟩, init_found_expired s.id st2 d2 now ctr timeout hv hf2 he2,
    hfresh, rfl⟩

/-- Witness for `revocation_is_permanent`: a single saved document for the
token of seed 0, expired, with the empty step sequence, reconstructed at
time 5 with the fresh seed 1. -/
theorem revocation_is_permanent_witness :
    (∃ d2, storeFindOne ((freshSession 0 0).expire [saveDoc (create_token 0) 0 []]).2
        (create_token 0) = some d2 ∧ d2.expired = some true)
    ∧ Session.init (some (create_token 0))
        ((freshSession 0 0).expire [saveDoc (create_token 0) 0 []]).2 5 1 600
      = { outcome := Except.ok (freshSession 5 1),
          store := ((freshSession 0 0).expire [saveDoc (create_token 0) 0 []]).2, finds := 1 }
    ∧ (freshSession 5 1).id ≠ create_token 0
    ∧ (freshSession 5 1).expired = false :=
  revocation_is_permanent (freshSession 0 0) [saveDoc (create_token 0) 0 []] _
    (create_token 0) (saveDoc (create_token 0) 0 []) rfl rfl
    Relation.ReflTransGen.refl 5 1 600 (create_token_valid 0) (by decide)
